import Mathlib

/-!
# Verification of the TikTok data-collection pipeline

A shallow embedding of `Data.py` (and the earlier single-file variant
`Data - Tiktok.py`): tabular data is modelled as a column list plus a
list of association-list rows, the pandas operations used by the code
(`empty`, column assignment, `concat`, column lookup) are modelled
directly, and the effectful boundary (the pyktok scrape, the Google
Sheets remote calls, file writes, sleeps) is modelled by oracles and
explicit event traces.
-/

set_option autoImplicit false

namespace TikTokData

/-- A cell value: a string, an integer, or the missing-value marker
(pandas NaN / Python None). -/
inductive Value where
  | vStr (s : String)
  | vInt (n : Int)
  | vNone
  deriving DecidableEq, Repr

/-- Python `str()` on a cell value. -/
def Value.pyStr : Value → String
  | .vStr s => s
  | .vInt n => toString n
  | .vNone => "None"

/-- A row: an association list from column names to values. -/
abbrev Row := List (String × Value)

/-- Cell lookup in a row; a column absent from the row reads as the
missing-value marker (pandas NaN after `concat` alignment). -/
def Row.cell : Row → String → Value
  | [], _ => Value.vNone
  | (k, v) :: rest, c => if k = c then v else Row.cell rest c

/-- Overwrite (or add) one cell of a row, as pandas column assignment
does row-wise. -/
def Row.set : Row → String → Value → Row
  | [], c, v => [(c, v)]
  | (k, w) :: rest, c, v =>
    if k = c then (k, v) :: rest else (k, w) :: Row.set rest c v

/-- A pandas DataFrame: frame-level column names and the rows. -/
structure DataFrame where
  cols : List String
  rows : List Row
  deriving DecidableEq, Repr

/-- `pd.DataFrame()`. -/
def DataFrame.emptyDF : DataFrame := ⟨[], []⟩

/-- `df.empty`: true iff the frame has no rows or no columns. -/
def DataFrame.emptyB (df : DataFrame) : Bool :=
  df.rows.isEmpty || df.cols.isEmpty

/-- `c in df.columns`. -/
def DataFrame.hasCol (df : DataFrame) (c : String) : Bool :=
  decide (c ∈ df.cols)

/-- `df[c]` as a whole column: `KeyError` (`none`) when the frame does
not have the column, otherwise the per-row cells in row order. -/
def DataFrame.getCol (df : DataFrame) (c : String) : Option (List Value) :=
  if df.hasCol c then some (df.rows.map (fun r => r.cell c)) else none

/-- `df[c] = v` with a scalar `v`: broadcasts the value to every row,
appending the column name when new. -/
def DataFrame.setConstCol (df : DataFrame) (c : String) (v : Value) : DataFrame :=
  ⟨if c ∈ df.cols then df.cols else df.cols ++ [c],
   df.rows.map (fun r => Row.set r c v)⟩

/-- `pd.concat([a, b], ignore_index=True)`: rows appended, columns the
order-preserving union; cells of rows missing a column read as NaN via
`Row.cell`. -/
def DataFrame.concat (a b : DataFrame) : DataFrame :=
  ⟨a.cols ++ b.cols.filter (fun c => decide (c ∉ a.cols)), a.rows ++ b.rows⟩

/-! ## GoogleSheetsDataSource.get_links (`Data.py` lines 57-71)

The worksheet column is modelled as the list of its cell values; the
comprehension `[link for link in column_values if 'tiktok.com' in str(link)]`
is a filter by substring containment on the `str()` coercion. -/

/-- Python `needle in hay` on strings: substring containment. -/
def strContains (hay needle : String) : Bool :=
  decide (needle.data <:+: hay.data)

namespace GoogleSheetsDataSource

/-- `GoogleSheetsDataSource.get_links`, parametrised by the column of
cell values read from the worksheet. -/
def get_links (column_values : List Value) : List Value :=
  column_values.filter (fun link => strContains link.pyStr "tiktok.com")

end GoogleSheetsDataSource

/-! ## TikTokDataFetcher.fetch_data (`Data.py` lines 85-104)

The external effects inside the `try` block (the pyktok scrape of the
link into the scratch file and the `pd.read_csv` read-back) are an
oracle: either some step raises, or the read-back yields a frame. -/

/-- Oracle for the scrape-and-read-back performed inside the `try`
block of `fetch_data`: either some step raises with a message, or the
scratch file is read back as a frame. -/
inductive ScrapeOutcome where
  | raises (msg : String)
  | readsBack (df : DataFrame)
  deriving DecidableEq, Repr

namespace TikTokDataFetcher

/-- The body of the `try` block of `fetch_data`: scrape, read back,
stamp `source_link`. -/
def fetch_data_body (link : String) (scrape : ScrapeOutcome) :
    Except String DataFrame :=
  match scrape with
  | .raises msg => .error msg
  | .readsBack df => .ok (df.setConstCol "source_link" (Value.vStr link))

/-- `TikTokDataFetcher.fetch_data`: the `except` clause converts any
raised error into an empty frame. -/
def fetch_data (link : String) (scrape : ScrapeOutcome) : DataFrame :=
  match fetch_data_body link scrape with
  | .error _ => DataFrame.emptyDF
  | .ok df => df

end TikTokDataFetcher

/-! ## TikTokDataProcessor.process_data (`Data.py` lines 108-145) -/

namespace TikTokDataProcessor

/-- The view-count cell of one output row: the `if/elif` chain over the
frame columns at `Data.py` lines 118-125. -/
def viewCountCell (df : DataFrame) (r : Row) : Value :=
  if df.hasCol "video_playcount" then r.cell "video_playcount"
  else if df.hasCol "stats_playCount" then r.cell "stats_playCount"
  else if df.hasCol "play_count" then r.cell "play_count"
  else Value.vInt 0

/-- The author cell of one output row: the `if/elif` chain at lines
128-135. -/
def authorCell (df : DataFrame) (r : Row) : Value :=
  if df.hasCol "author_username" then r.cell "author_username"
  else if df.hasCol "author_uniqueId" then r.cell "author_uniqueId"
  else if df.hasCol "author_nickname" then r.cell "author_nickname"
  else Value.vStr "Unknown"

/-- The follower-count cell of one output row: the `if/elif` chain at
lines 138-143. -/
def followerCell (df : DataFrame) (r : Row) : Value :=
  if df.hasCol "author_followercount" then r.cell "author_followercount"
  else if df.hasCol "authorStats_followerCount" then r.cell "authorStats_followerCount"
  else Value.vInt 0

/-- One row of `formatted_df`, for the input row at 0-based position
`i`. -/
def formattedRow (df : DataFrame) (i : Nat) (r : Row) : Row :=
  [("STT", Value.vInt (Int.ofNat (i + 1))),
   ("Link Video", r.cell "source_link"),
   ("Lượt xem", viewCountCell df r),
   ("Người Đăng", authorCell df r),
   ("Follower Người Đăng", followerCell df r)]

/-- The fixed output schema of `formatted_df`. -/
def formattedCols : List String :=
  ["STT", "Link Video", "Lượt xem", "Người Đăng", "Follower Người Đăng"]

/-- `TikTokDataProcessor.process_data`: empty input short-circuits to
`pd.DataFrame()`; otherwise `formatted_df` is built column by column.
`formatted_df['Link Video'] = df['source_link']` raises `KeyError`
when the frame has no `source_link` column, modelled by `.error`. -/
def process_data (df : DataFrame) : Except String DataFrame :=
  if df.emptyB then .ok DataFrame.emptyDF
  else if df.hasCol "source_link" then
    .ok ⟨formattedCols, df.rows.enum.map (fun p => formattedRow df p.1 p.2)⟩
  else .error "KeyError: source_link"

end TikTokDataProcessor

/-! ## CSVDataStorage.save_data (`Data.py` lines 154-166)

The filesystem effect is the returned list of performed writes (path
and frame); `os.path.join` on the POSIX-style relative paths used here
is string concatenation with a separator. -/

namespace CSVDataStorage

/-- `CSVDataStorage.save_data`: returns the value `save_data` returns
together with the list of file writes it performed. -/
def save_data (output_dir : String) (df : DataFrame) (filename : String) :
    String × List (String × DataFrame) :=
  if df.emptyB then ("", [])
  else
    let filepath := output_dir ++ "/" ++ filename
    (filepath, [(filepath, df)])

end CSVDataStorage

/-! ## GoogleSheetsDataStorage.save_data (`Data.py` lines 186-224)

The remote service is an oracle saying which of the five remote steps
(connect, create, insert_permission, get_worksheet, update) fails
first, if any, and what id a created spreadsheet receives. Performed
remote calls are recorded as events. -/

/-- One remote Google Sheets call performed by `save_data`. -/
inductive GsEvent where
  | connect
  | create (sheetName : String)
  | insertPermission (spreadsheetId : String)
  | getWorksheet
  | update (cellRef : String) (values : List (List Value))
  deriving DecidableEq, Repr

/-- Oracle for the remote Google Sheets service: whether each call in
`save_data` raises, and the id of the spreadsheet `create` returns. -/
structure SheetsRemote where
  connectFails : Bool
  createFails : Bool
  permFails : Bool
  worksheetFails : Bool
  updateFails : Bool
  newId : String
  deriving DecidableEq, Repr

namespace GoogleSheetsDataStorage

/-- `values = [df.columns.tolist()] + df.values.tolist()`: the header
row followed by the data rows, cells in column order. -/
def sheetValues (df : DataFrame) : List (List Value) :=
  df.cols.map Value.vStr :: df.rows.map (fun r => df.cols.map (fun c => r.cell c))

/-- The body of the `try` block of `save_data`: the remote calls in
program order, stopping at the first failing one; returns the raised
message or the spreadsheet id, together with the calls performed. -/
def save_attempt (env : SheetsRemote) (df : DataFrame) (sheet_name : String) :
    Except String String × List GsEvent :=
  if env.connectFails then (.error "connect error", [])
  else if env.createFails then (.error "create error", [.connect])
  else if env.permFails then
    (.error "permission error", [.connect, .create sheet_name])
  else if env.worksheetFails then
    (.error "worksheet error",
     [.connect, .create sheet_name, .insertPermission env.newId])
  else if env.updateFails then
    (.error "update error",
     [.connect, .create sheet_name, .insertPermission env.newId, .getWorksheet])
  else
    (.ok env.newId,
     [.connect, .create sheet_name, .insertPermission env.newId, .getWorksheet,
      .update "A1" (sheetValues df)])

/-- `GoogleSheetsDataStorage.save_data`: empty frames short-circuit
before any remote call; the `except` clause converts any raised error
into an empty-string return. -/
def save_data (env : SheetsRemote) (df : DataFrame) (sheet_name : String) :
    String × List GsEvent :=
  if df.emptyB then ("", [])
  else
    match save_attempt env df sheet_name with
    | (.ok sid, evs) => (sid, evs)
    | (.error _, evs) => ("", evs)

end GoogleSheetsDataStorage

/-! ## DataCollector.collect_data (`Data.py` lines 241-335)

The injected `data_fetcher` is abstract (`DataFetcher`); its behaviour
on the `i`-th link is an oracle: it either raises (caught by the
`except` clause of the loop body) or returns a frame. The oracle also
says whether the per-link scratch file exists after the call, which is
what `os.path.exists(temp_filename)` observes. Side effects of the
loop and of the final save section are recorded as events; scratch
events carry the 0-based link position alongside the path so that
distinct links' scratch files are told apart. -/

/-- Oracle for one `data_fetcher.fetch_data` call: either the call
raises with a message, or it returns a frame; `scratchLeft` is whether
the scratch file exists afterwards. -/
inductive FetchBehavior where
  | raises (msg : String) (scratchLeft : Bool)
  | returns (df : DataFrame) (scratchLeft : Bool)
  deriving DecidableEq, Repr

/-- One per-link outcome record appended to `results`. `Success`
records are built without an `error` key (`none`). -/
structure Outcome where
  index : Nat
  link : String
  status : String
  error : Option String
  deriving DecidableEq, Repr

/-- An observable side effect of `collect_data`. -/
inductive Event where
  | fetchCall (i : Nat) (link : String) (path : String)
  | removeScratch (i : Nat) (path : String)
  | sleep5
  | csvSave (df : DataFrame) (filename : String)
  | sheetsSave (df : DataFrame) (sheetName : String)
  deriving DecidableEq, Repr

namespace DataCollector

/-- `temp_filename` for the link at 0-based position `i`. -/
def tempName (i : Nat) : String :=
  "tiktok_data/temp_tiktok_data_" ++ toString (i + 1) ++ ".csv"

/-- The loop body of `collect_data` for the link at 0-based position
`i` of `n` links, with cumulative frame `all`: returns the new
cumulative frame, the outcome appended to `results`, and the events of
this iteration. A raising fetch jumps to the `except` clause, skipping
the scratch-file cleanup; the pacing sleep runs in both the `try` and
the `except` paths when the link is not the last. -/
def collectStep (fb : FetchBehavior) (n i : Nat) (link : String)
    (all : DataFrame) : DataFrame × Outcome × List Event :=
  match fb with
  | .raises msg _ =>
    (all, ⟨i + 1, link, "Failed", some msg⟩,
     [Event.fetchCall i link (tempName i)]
       ++ (if i < n - 1 then [Event.sleep5] else []))
  | .returns df scratchLeft =>
    let step :=
      if !df.emptyB then
        (all.concat (df.setConstCol "link_index" (Value.vInt (Int.ofNat (i + 1)))),
         (⟨i + 1, link, "Success", none⟩ : Outcome))
      else
        (all, (⟨i + 1, link, "Failed", some "Empty data returned"⟩ : Outcome))
    (step.1, step.2,
     [Event.fetchCall i link (tempName i)]
       ++ (if scratchLeft then [Event.removeScratch i (tempName i)] else [])
       ++ (if i < n - 1 then [Event.sleep5] else []))

/-- The `for i, link in enumerate(links)` loop from position `i`
onwards, with cumulative frame `all`. -/
def collectLoop (fetchB : Nat → FetchBehavior) (n : Nat) :
    Nat → List String → DataFrame → DataFrame × List Outcome × List Event
  | _, [], all => (all, [], [])
  | i, link :: rest, all =>
    let s := collectStep (fetchB i) n i link all
    let t := collectLoop fetchB n (i + 1) rest s.1
    (t.1, s.2.1 :: t.2.1, s.2.2 ++ t.2.2)

/-- `summary_df = pd.DataFrame(results)`: one row per outcome dict,
columns in first-appearance order of the keys. -/
def outcomeRow (o : Outcome) : Row :=
  [("index", Value.vInt (Int.ofNat o.index)),
   ("link", Value.vStr o.link),
   ("status", Value.vStr o.status)]
    ++ (match o.error with
        | some e => [("error", Value.vStr e)]
        | none => [])

/-- Order-preserving union of the key lists of the outcome rows. -/
def colsUnion (keyLists : List (List String)) : List String :=
  keyLists.foldl (fun acc ks => acc ++ ks.filter (fun k => decide (k ∉ acc))) []

/-- `pd.DataFrame(results)`. -/
def resultsToDF (results : List Outcome) : DataFrame :=
  ⟨colsUnion (results.map (fun o => (outcomeRow o).map Prod.fst)),
   results.map outcomeRow⟩

/-- `DataCollector.collect_data`, parametrised by the link list the
data source yields, the fetcher oracle, and the run timestamp. Returns
the cumulative raw frame, the outcome list, and the event trace; the
uncaught `KeyError` that `process_data` raises on a frame without a
`source_link` column propagates as `.error`. -/
def collect_data (fetchB : Nat → FetchBehavior) (links : List String)
    (timestamp : String) :
    Except String (DataFrame × List Outcome × List Event) :=
  let r := collectLoop fetchB links.length 0 links DataFrame.emptyDF
  let all_data := r.1
  let results := r.2.1
  let loopEvents := r.2.2
  let rawSave :=
    if all_data.emptyB then []
    else [Event.csvSave all_data ("all_tiktok_data_" ++ timestamp ++ ".csv")]
  let summarySave :=
    [Event.csvSave (resultsToDF results)
      ("processing_summary_" ++ timestamp ++ ".csv")]
  if all_data.emptyB then
    .ok (all_data, results, loopEvents ++ rawSave ++ summarySave)
  else
    match TikTokDataProcessor.process_data all_data with
    | .error e => .error e
    | .ok processed =>
      .ok (all_data, results,
           loopEvents ++ rawSave ++ summarySave
             ++ [Event.csvSave processed
                   ("formatted_tiktok_data_" ++ timestamp ++ ".csv"),
                 Event.sheetsSave processed
                   ("TikTok Data Analysis " ++ timestamp)])

end DataCollector

/-- Whether an event is an invocation of one of the two result sinks. -/
def Event.isSave : Event → Bool
  | .csvSave _ _ => true
  | .sheetsSave _ _ => true
  | _ => false

/-- The outcome record the claims predict for one link: `Success`
without an error key on a non-empty fetched frame, `Failed` with
`"Empty data returned"` on an empty frame, `Failed` with the caught
message when the fetch raises. -/
def outcomeSpec (fb : FetchBehavior) (i : Nat) (link : String) : Outcome :=
  match fb with
  | .raises msg _ => ⟨i + 1, link, "Failed", some msg⟩
  | .returns df _ =>
    if df.emptyB then ⟨i + 1, link, "Failed", some "Empty data returned"⟩
    else ⟨i + 1, link, "Success", none⟩

/-- The outcome list the claims predict: one `outcomeSpec` record per
link, in link order, indexed from 1. -/
def outcomesSpec (fb : Nat → FetchBehavior) : Nat → List String → List Outcome
  | _, [] => []
  | i, link :: rest => outcomeSpec (fb i) i link :: outcomesSpec fb (i + 1) rest

/-- The rows the claims predict for the cumulative table: for each
link whose fetch returns a non-empty frame, that frame's rows stamped
with `link_index` equal to the link's 1-based position, in link
order. -/
def contribRows (fb : Nat → FetchBehavior) : Nat → List String → List Row
  | _, [] => []
  | i, _ :: rest =>
    (match fb i with
     | .returns df _ =>
       if df.emptyB then []
       else (df.setConstCol "link_index" (Value.vInt (Int.ofNat (i + 1)))).rows
     | .raises _ _ => [])
      ++ contribRows fb (i + 1) rest

/-- A sample raw frame as the fetcher returns it (stamped with
`source_link`, with two of the view-count column variants), used by
the concrete witness runs. -/
def sampleRow : Row :=
  [("source_link", Value.vStr "https://www.tiktok.com/@a/video/1"),
   ("video_playcount", Value.vInt 7),
   ("stats_playCount", Value.vInt 8)]

/-- The one-row frame holding `sampleRow`. -/
def sampleDF : DataFrame :=
  ⟨["source_link", "video_playcount", "stats_playCount"], [sampleRow]⟩

/-- The fetcher behaviour of the spec's three-link test run: the fetch
of link 2 raises, the others return `sampleDF`. -/
def specFetch : Nat → FetchBehavior := fun i =>
  if i = 1 then FetchBehavior.raises "boom" true
  else FetchBehavior.returns sampleDF true

/-- The three links of the spec's test run. -/
def specLinks : List String := ["L1", "L2", "L3"]

/-- A fetcher whose only call raises while leaving the scratch file on
disk. -/
def badFetch : Nat → FetchBehavior := fun _ => FetchBehavior.raises "boom" true

/-- A remote-sheets oracle on which every call succeeds. -/
def sampleEnv : SheetsRemote := ⟨false, false, false, false, false, "sheet-id-1"⟩

/-- A remote-sheets oracle on which `insert_permission` raises. -/
def failEnv : SheetsRemote := ⟨false, false, true, false, false, "sheet-id-1"⟩

/-- The spec's sample worksheet column of mixed values. -/
def specColumn : List Value :=
  [Value.vStr "https://www.tiktok.com/@a/video/1", Value.vStr "",
   Value.vStr "not a link", Value.vStr "https://www.tiktok.com/@b/video/2"]

/-- The per-run invariant that makes the final normalisation safe:
the cumulative frame is empty or carries a `source_link` column. -/
def frameInv (df : DataFrame) : Prop :=
  df.emptyB = true ∨ df.hasCol "source_link" = true

/-- The property the real fetcher (`TikTokDataFetcher.fetch_data`)
guarantees: every non-empty frame it returns carries `source_link`. -/
def fetcherStampsSourceLink (fb : Nat → FetchBehavior) : Prop :=
  ∀ i df s, fb i = FetchBehavior.returns df s → df.emptyB = false →
    df.hasCol "source_link" = true

/-! ## Helper lemmas about the tabular model -/

@[simp] theorem Row.cell_nil (c : String) : Row.cell [] c = Value.vNone := rfl

@[simp] theorem Row.cell_cons (k : String) (v : Value) (rest : Row) (c : String) :
    Row.cell ((k, v) :: rest) c = if k = c then v else Row.cell rest c := rfl

theorem Row.cell_set_self (r : Row) (c : String) (v : Value) :
    Row.cell (Row.set r c v) c = v := by
  induction r with
  | nil => simp [Row.set, Row.cell]
  | cons p rest ih =>
    obtain ⟨k, w⟩ := p
    by_cases h : k = c
    · simp [Row.set, h, Row.cell]
    · simp [Row.set, h, Row.cell, ih]

theorem Row.cell_set_ne (r : Row) (c c' : String) (v : Value) (h : c ≠ c') :
    Row.cell (Row.set r c v) c' = Row.cell r c' := by
  induction r with
  | nil => simp [Row.set, Row.cell, h]
  | cons p rest ih =>
    obtain ⟨k, w⟩ := p
    by_cases hk : k = c
    · have hkc : k ≠ c' := hk ▸ h
      simp [Row.set, hk, Row.cell, hkc, h]
    · simp [Row.set, hk, Row.cell, ih]

@[simp] theorem DataFrame.rows_concat (a b : DataFrame) :
    (DataFrame.concat a b).rows = a.rows ++ b.rows := rfl

@[simp] theorem DataFrame.rows_setConstCol (df : DataFrame) (c : String) (v : Value) :
    (df.setConstCol c v).rows = df.rows.map (fun r => Row.set r c v) := rfl

theorem DataFrame.hasCol_concat (a b : DataFrame) (c : String) :
    (DataFrame.concat a b).hasCol c = (a.hasCol c || b.hasCol c) := by
  simp only [DataFrame.concat, DataFrame.hasCol]
  by_cases ha : c ∈ a.cols <;> by_cases hb : c ∈ b.cols <;>
    simp [List.mem_append, List.mem_filter, ha, hb]

theorem DataFrame.hasCol_setConstCol (df : DataFrame) (c c' : String) (v : Value)
    (h : df.hasCol c' = true) : (df.setConstCol c v).hasCol c' = true := by
  simp only [DataFrame.setConstCol, DataFrame.hasCol] at *
  by_cases hc : c ∈ df.cols
  · simpa [hc] using h
  · simp only [hc, if_false]
    simp only [decide_eq_true_eq] at h ⊢
    exact List.mem_append.mpr (Or.inl h)

theorem DataFrame.hasCol_setConstCol_self (df : DataFrame) (c : String) (v : Value) :
    (df.setConstCol c v).hasCol c = true := by
  simp only [DataFrame.setConstCol, DataFrame.hasCol]
  by_cases hc : c ∈ df.cols <;> simp [hc]

theorem map_cell_set_replicate (l : List Row) (c : String) (v : Value) :
    (l.map (fun r => Row.set r c v)).map (fun r => r.cell c) =
      List.replicate l.length v := by
  induction l with
  | nil => rfl
  | cons r t ih => simp [Row.cell_set_self, ih, List.replicate_succ]

theorem map_const_replicate {α β : Type} (l : List α) (b : β) :
    l.map (fun _ => b) = List.replicate l.length b := by
  induction l with
  | nil => rfl
  | cons x t ih => simp [ih, List.replicate_succ]

theorem DataFrame.getCol_mk_of_mem (cols : List String) (rows : List Row)
    (c : String) (h : c ∈ cols) :
    DataFrame.getCol ⟨cols, rows⟩ c = some (rows.map (fun r => r.cell c)) := by
  simp [DataFrame.getCol, DataFrame.hasCol, h]

theorem DataFrame.getCol_of_hasCol (df : DataFrame) (c : String)
    (h : df.hasCol c = true) :
    df.getCol c = some (df.rows.map (fun r => r.cell c)) := by
  simp [DataFrame.getCol, h]

theorem TikTokDataProcessor.map_cell_formatted (df : DataFrame) (c : String)
    (f : Row → Value)
    (hcell : ∀ i r, Row.cell (TikTokDataProcessor.formattedRow df i r) c = f r) :
    (df.rows.enum.map (fun p => TikTokDataProcessor.formattedRow df p.1 p.2)).map
        (fun r => r.cell c) = df.rows.map f := by
  rw [List.map_map]
  have h : ((fun r => Row.cell r c) ∘ fun p : Nat × Row =>
      TikTokDataProcessor.formattedRow df p.1 p.2) = (f ∘ Prod.snd) :=
    funext fun p => hcell p.1 p.2
  rw [h, ← List.map_map, List.enum_map_snd]

theorem TikTokDataProcessor.map_stt_formatted (df : DataFrame) :
    (df.rows.enum.map (fun p => TikTokDataProcessor.formattedRow df p.1 p.2)).map
        (fun r => r.cell "STT") =
      (List.range df.rows.length).map (fun k => Value.vInt (Int.ofNat (k + 1))) := by
  rw [List.map_map]
  have h : ((fun r => Row.cell r "STT") ∘ fun p : Nat × Row =>
      TikTokDataProcessor.formattedRow df p.1 p.2) =
      ((fun k => Value.vInt (Int.ofNat (k + 1))) ∘ Prod.fst) := by
    funext p
    simp [TikTokDataProcessor.formattedRow]
  rw [h, ← List.map_map, List.enum_map_fst]

/-! ## Helper lemmas about the pipeline loop -/

namespace DataCollector

theorem collectStep_events (fb : FetchBehavior) (n i : Nat) (link : String)
    (all : DataFrame) :
    (collectStep fb n i link all).2.2 =
      [Event.fetchCall i link (tempName i)]
        ++ (match fb with
            | .returns _ s => if s then [Event.removeScratch i (tempName i)] else []
            | .raises _ _ => [])
        ++ (if i < n - 1 then [Event.sleep5] else []) := by
  cases fb with
  | raises msg s => rfl
  | returns df s => rfl

theorem collectLoop_results (fb : Nat → FetchBehavior) (n : Nat) :
    ∀ (rest : List String) (i : Nat) (all : DataFrame),
      (collectLoop fb n i rest all).2.1 = outcomesSpec fb i rest := by
  intro rest
  induction rest with
  | nil => intro i all; rfl
  | cons link rest ih =>
    intro i all
    show (collectStep (fb i) n i link all).2.1 :: _ = _
    rw [outcomesSpec, ih]
    congr 1
    cases hfb : fb i with
    | raises msg s => simp [collectStep, outcomeSpec]
    | returns df s =>
      cases hdf : df.emptyB <;> simp [collectStep, outcomeSpec, hdf]

theorem collectLoop_rows (fb : Nat → FetchBehavior) (n : Nat) :
    ∀ (rest : List String) (i : Nat) (all : DataFrame),
      (collectLoop fb n i rest all).1.rows = all.rows ++ contribRows fb i rest := by
  intro rest
  induction rest with
  | nil => intro i all; simp [collectLoop, contribRows]
  | cons link rest ih =>
    intro i all
    show (collectLoop fb n (i + 1) rest (collectStep (fb i) n i link all).1).1.rows = _
    rw [ih, contribRows]
    cases hfb : fb i with
    | raises msg s => simp [collectStep]
    | returns df s =>
      cases hdf : df.emptyB <;>
        simp [collectStep, hdf, List.append_assoc]

theorem collectLoop_sleep_count (fb : Nat → FetchBehavior) (n : Nat) :
    ∀ (rest : List String) (i : Nat) (all : DataFrame), i + rest.length = n →
      ((collectLoop fb n i rest all).2.2.count Event.sleep5) = n - 1 - i := by
  intro rest
  induction rest with
  | nil =>
    intro i all hn
    simp only [List.length_nil, Nat.add_zero] at hn
    rw [show (collectLoop fb n i [] all).2.2 = [] from rfl, List.count_nil]
    omega
  | cons link rest ih =>
    intro i all hn
    simp only [List.length_cons] at hn
    show ((collectStep (fb i) n i link all).2.2
        ++ (collectLoop fb n (i + 1) rest (collectStep (fb i) n i link all).1).2.2).count
          Event.sleep5 = n - 1 - i
    rw [List.count_append, ih (i + 1) _ (by omega)]
    have hstep : (collectStep (fb i) n i link all).2.2.count Event.sleep5 =
        if i < n - 1 then 1 else 0 := by
      rw [collectStep_events]
      cases hfb : fb i with
      | raises msg s =>
        by_cases hi : i < n - 1 <;> simp [hi, List.count_append]
      | returns df s =>
        by_cases hi : i < n - 1 <;> cases s <;>
          simp [hi, List.count_append]
    rw [hstep]
    by_cases hi : i < n - 1 <;> simp only [hi, if_true, if_false] <;> omega

theorem collectLoop_no_save (fb : Nat → FetchBehavior) (n : Nat) :
    ∀ (rest : List String) (i : Nat) (all : DataFrame),
      ∀ e ∈ (collectLoop fb n i rest all).2.2, e.isSave = false := by
  intro rest
  induction rest with
  | nil => intro i all e he; simp [collectLoop] at he
  | cons link rest ih =>
    intro i all e he
    rw [show (collectLoop fb n i (link :: rest) all).2.2 =
        (collectStep (fb i) n i link all).2.2
          ++ (collectLoop fb n (i + 1) rest (collectStep (fb i) n i link all).1).2.2
      from rfl, List.mem_append] at he
    rcases he with he | he
    · rw [collectStep_events] at he
      simp only [List.mem_append, List.mem_singleton] at he
      rcases he with (he | he) | he
      · subst he; rfl
      · cases hfb : fb i with
        | raises msg s => rw [hfb] at he; simp at he
        | returns df s =>
          rw [hfb] at he
          cases s <;> simp at he
          subst he; rfl
      · split at he <;> simp at he
        subst he; rfl
    · exact ih (i + 1) _ e he

theorem collectLoop_removeScratch_mem (fb : Nat → FetchBehavior) (n : Nat)
    (j : Nat) (p : String) :
    ∀ (rest : List String) (i : Nat) (all : DataFrame),
      (Event.removeScratch j p ∈ (collectLoop fb n i rest all).2.2) ↔
        (i ≤ j ∧ j < i + rest.length ∧ p = tempName j ∧
          ∃ df, fb j = FetchBehavior.returns df true) := by
  intro rest
  induction rest with
  | nil =>
    intro i all
    constructor
    · intro h; simp [collectLoop] at h
    · rintro ⟨h1, h2, -⟩
      simp only [List.length_nil, Nat.add_zero] at h2
      omega
  | cons link rest ih =>
    intro i all
    rw [show (collectLoop fb n i (link :: rest) all).2.2 =
        (collectStep (fb i) n i link all).2.2
          ++ (collectLoop fb n (i + 1) rest (collectStep (fb i) n i link all).1).2.2
      from rfl, List.mem_append, ih (i + 1)]
    have hstep : (Event.removeScratch j p ∈ (collectStep (fb i) n i link all).2.2) ↔
        (j = i ∧ p = tempName i ∧ ∃ df, fb i = FetchBehavior.returns df true) := by
      rw [collectStep_events]
      cases hfb : fb i with
      | raises msg s =>
        simp only [List.mem_append, List.mem_singleton]
        constructor
        · rintro ((h | h) | h)
          · cases h
          · simp at h
          · split at h <;> simp at h
        · rintro ⟨-, -, df, hdf⟩; cases hdf
      | returns df s =>
        simp only [List.mem_append, List.mem_singleton]
        constructor
        · rintro ((h | h) | h)
          · cases h
          · cases s with
            | true =>
              simp only [if_true, List.mem_singleton] at h
              obtain ⟨h1, h2⟩ := Event.removeScratch.inj h
              exact ⟨h1, h2, df, rfl⟩
            | false => simp at h
          · split at h <;> simp at h
        · rintro ⟨h1, h2, df', hdf'⟩
          obtain ⟨-, hs⟩ := FetchBehavior.returns.inj hdf'
          subst h1; subst h2; subst hs
          exact Or.inl (Or.inr (by simp))
    rw [hstep]
    simp only [List.length_cons]
    constructor
    · rintro (⟨h1, h2, h3⟩ | ⟨h1, h2, h3, h4⟩)
      · subst h1; exact ⟨le_refl _, by omega, h2, h3⟩
      · exact ⟨by omega, by omega, h3, h4⟩
    · rintro ⟨h1, h2, h3, h4⟩
      by_cases hj : j = i
      · subst hj; exact Or.inl ⟨rfl, h3, h4⟩
      · exact Or.inr ⟨by omega, by omega, h3, h4⟩

theorem collectLoop_frameInv (fb : Nat → FetchBehavior) (n : Nat)
    (H : fetcherStampsSourceLink fb) :
    ∀ (rest : List String) (i : Nat) (all : DataFrame), frameInv all →
      frameInv (collectLoop fb n i rest all).1 := by
  intro rest
  induction rest with
  | nil => intro i all hall; exact hall
  | cons link rest ih =>
    intro i all hall
    refine ih (i + 1) _ ?_
    cases hfb : fb i with
    | raises msg s => simpa [collectStep, hfb] using hall
    | returns df s =>
      cases hdf : df.emptyB with
      | true => simpa [collectStep, hfb, hdf] using hall
      | false =>
        have hset : (df.setConstCol "link_index"
            (Value.vInt (Int.ofNat (i + 1)))).hasCol "source_link" = true :=
          DataFrame.hasCol_setConstCol _ _ _ _ (H i df s hfb hdf)
        have hgoal : (collectStep (FetchBehavior.returns df s) n i link all).1 =
            all.concat (df.setConstCol "link_index"
              (Value.vInt (Int.ofNat (i + 1)))) := by
          simp [collectStep, hdf]
        exact Or.inr (by rw [hgoal, DataFrame.hasCol_concat, hset, Bool.or_true])

end DataCollector

theorem TikTokDataProcessor.process_data_ok (df : DataFrame)
    (h1 : df.emptyB = false) (h2 : df.hasCol "source_link" = true) :
    TikTokDataProcessor.process_data df =
      Except.ok ⟨TikTokDataProcessor.formattedCols,
        df.rows.enum.map (fun p => TikTokDataProcessor.formattedRow df p.1 p.2)⟩ := by
  simp [TikTokDataProcessor.process_data, h1, h2]

namespace DataCollector

theorem collect_data_eq_empty (fb : Nat → FetchBehavior) (links : List String)
    (ts : String)
    (he : (collectLoop fb links.length 0 links DataFrame.emptyDF).1.emptyB = true) :
    collect_data fb links ts = Except.ok
      ((collectLoop fb links.length 0 links DataFrame.emptyDF).1,
       (collectLoop fb links.length 0 links DataFrame.emptyDF).2.1,
       (collectLoop fb links.length 0 links DataFrame.emptyDF).2.2
         ++ [Event.csvSave
              (resultsToDF (collectLoop fb links.length 0 links DataFrame.emptyDF).2.1)
              ("processing_summary_" ++ ts ++ ".csv")]) := by
  unfold collect_data
  simp [he]

theorem collect_data_eq_nonempty (fb : Nat → FetchBehavior) (links : List String)
    (ts : String) (processed : DataFrame)
    (he : (collectLoop fb links.length 0 links DataFrame.emptyDF).1.emptyB = false)
    (hpd : TikTokDataProcessor.process_data
      (collectLoop fb links.length 0 links DataFrame.emptyDF).1 =
        Except.ok processed) :
    collect_data fb links ts = Except.ok
      ((collectLoop fb links.length 0 links DataFrame.emptyDF).1,
       (collectLoop fb links.length 0 links DataFrame.emptyDF).2.1,
       (collectLoop fb links.length 0 links DataFrame.emptyDF).2.2
         ++ [Event.csvSave (collectLoop fb links.length 0 links DataFrame.emptyDF).1
              ("all_tiktok_data_" ++ ts ++ ".csv"),
             Event.csvSave
              (resultsToDF (collectLoop fb links.length 0 links DataFrame.emptyDF).2.1)
              ("processing_summary_" ++ ts ++ ".csv"),
             Event.csvSave processed ("formatted_tiktok_data_" ++ ts ++ ".csv"),
             Event.sheetsSave processed ("TikTok Data Analysis " ++ ts)]) := by
  unfold collect_data
  simp [he, hpd]

theorem collect_data_eq_error (fb : Nat → FetchBehavior) (links : List String)
    (ts : String) (e : String)
    (he : (collectLoop fb links.length 0 links DataFrame.emptyDF).1.emptyB = false)
    (hpd : TikTokDataProcessor.process_data
      (collectLoop fb links.length 0 links DataFrame.emptyDF).1 = Except.error e) :
    collect_data fb links ts = Except.error e := by
  unfold collect_data
  simp [he, hpd]

theorem collect_data_decomp (fb : Nat → FetchBehavior) (links : List String)
    (ts : String) (all : DataFrame) (results : List Outcome) (events : List Event)
    (h : collect_data fb links ts = Except.ok (all, results, events)) :
    all = (collectLoop fb links.length 0 links DataFrame.emptyDF).1 ∧
    results = (collectLoop fb links.length 0 links DataFrame.emptyDF).2.1 ∧
    ∃ tail,
      events = (collectLoop fb links.length 0 links DataFrame.emptyDF).2.2 ++ tail ∧
      (∀ e ∈ tail, e.isSave = true) ∧
      ((all.emptyB = true ∧
          tail = [Event.csvSave (resultsToDF results)
            ("processing_summary_" ++ ts ++ ".csv")]) ∨
       (all.emptyB = false ∧ ∃ processed,
          TikTokDataProcessor.process_data all = Except.ok processed ∧
          tail = [Event.csvSave all ("all_tiktok_data_" ++ ts ++ ".csv"),
                  Event.csvSave (resultsToDF results)
                    ("processing_summary_" ++ ts ++ ".csv"),
                  Event.csvSave processed ("formatted_tiktok_data_" ++ ts ++ ".csv"),
                  Event.sheetsSave processed ("TikTok Data Analysis " ++ ts)])) := by
  by_cases he : (collectLoop fb links.length 0 links DataFrame.emptyDF).1.emptyB
  · rw [collect_data_eq_empty fb links ts he] at h
    simp only [Except.ok.injEq, Prod.mk.injEq] at h
    obtain ⟨h1, h2, h3⟩ := h
    subst h1; subst h2; subst h3
    refine ⟨rfl, rfl, _, rfl, ?_, Or.inl ⟨he, rfl⟩⟩
    intro e hee
    simp only [List.mem_singleton] at hee
    subst hee; rfl
  · rw [Bool.not_eq_true] at he
    cases hpd : TikTokDataProcessor.process_data
        (collectLoop fb links.length 0 links DataFrame.emptyDF).1 with
    | error e =>
      rw [collect_data_eq_error fb links ts e he hpd] at h
      cases h
    | ok processed =>
      rw [collect_data_eq_nonempty fb links ts processed he hpd] at h
      simp only [Except.ok.injEq, Prod.mk.injEq] at h
      obtain ⟨h1, h2, h3⟩ := h
      subst h1; subst h2; subst h3
      refine ⟨rfl, rfl, _, rfl, ?_, Or.inr ⟨he, processed, hpd, rfl⟩⟩
      intro e hee
      simp only [List.mem_cons, List.not_mem_nil, or_false] at hee
      rcases hee with rfl | rfl | rfl | rfl
      · rfl
      · rfl
      · rfl
      · rfl

theorem collect_data_isOk (fb : Nat → FetchBehavior) (links : List String)
    (ts : String) (H : fetcherStampsSourceLink fb) :
    ∃ out, collect_data fb links ts = Except.ok out := by
  have hinv := collectLoop_frameInv fb links.length H links 0 DataFrame.emptyDF
    (Or.inl rfl)
  by_cases he : (collectLoop fb links.length 0 links DataFrame.emptyDF).1.emptyB
  · exact ⟨_, collect_data_eq_empty fb links ts he⟩
  · rw [Bool.not_eq_true] at he
    have hcol : (collectLoop fb links.length 0 links DataFrame.emptyDF).1.hasCol
        "source_link" = true := by
      rcases hinv with hh | hh
      · rw [hh] at he; cases he
      · exact hh
    exact ⟨_, collect_data_eq_nonempty fb links ts _ he
      (TikTokDataProcessor.process_data_ok _ he hcol)⟩

end DataCollector

theorem outcomesSpec_length (fb : Nat → FetchBehavior) :
    ∀ (l : List String) (i : Nat), (outcomesSpec fb i l).length = l.length := by
  intro l
  induction l with
  | nil => intro i; rfl
  | cons link rest ih => intro i; simp [outcomesSpec, ih]

theorem outcomeSpec_index (fb : FetchBehavior) (i : Nat) (link : String) :
    (outcomeSpec fb i link).index = i + 1 := by
  cases fb with
  | raises msg s => rfl
  | returns df s => cases hdf : df.emptyB <;> simp [outcomeSpec, hdf]

theorem outcomesSpec_map_index (fb : Nat → FetchBehavior) :
    ∀ (l : List String) (i : Nat),
      (outcomesSpec fb i l).map (fun o => o.index) =
        (List.range l.length).map (fun k => i + k + 1) := by
  intro l
  induction l with
  | nil => intro i; rfl
  | cons link rest ih =>
    intro i
    show (outcomeSpec (fb i) i link).index ::
      (outcomesSpec fb (i + 1) rest).map (fun o => o.index) = _
    rw [ih (i + 1), outcomeSpec_index, List.length_cons, List.range_succ_eq_map,
      List.map_cons, List.map_map]
    refine congrArg₂ List.cons ?_ ?_
    · simp
    · exact List.map_congr_left fun a _ => by
        simp only [Function.comp_apply, Nat.succ_eq_add_one]
        omega

theorem outcomesSpec_statuses (fb : Nat → FetchBehavior) :
    ∀ (l : List String) (i : Nat) (o : Outcome), o ∈ outcomesSpec fb i l →
      (o.status = "Success" ∨ o.status = "Failed") ∧
      (o.error.isSome = true ↔ o.status = "Failed") := by
  intro l
  induction l with
  | nil => intro i o ho; cases ho
  | cons link rest ih =>
    intro i o ho
    rcases List.mem_cons.mp ho with rfl | hmem
    · cases hfb : fb i with
      | raises msg s => simp [outcomeSpec, hfb]
      | returns df s => cases hdf : df.emptyB <;> simp [outcomeSpec, hfb, hdf]
    · exact ih (i + 1) o hmem

theorem specFetch_stamps : fetcherStampsSourceLink specFetch := by
  intro i df s h hemp
  unfold specFetch at h
  split at h
  · cases h
  · injection h with hdf hs
    subst hdf
    decide

/-! ## The claims -/

/-- C9: `GoogleSheetsDataSource.get_links` returns exactly the column
values containing the substring "tiktok.com": an order-preserving
sublist of the input, every kept value matches, and each value's
multiplicity is the input's when it matches and zero otherwise (so
duplicates pass through); matching goes through the `str()` coercion,
so non-string cells are handled rather than failing. -/
theorem C9_get_links_filter (vs : List Value) :
    (GoogleSheetsDataSource.get_links vs).Sublist vs ∧
    (∀ v ∈ GoogleSheetsDataSource.get_links vs,
      strContains v.pyStr "tiktok.com" = true) ∧
    (∀ v : Value, (GoogleSheetsDataSource.get_links vs).count v =
      if strContains v.pyStr "tiktok.com" = true then vs.count v else 0) := by
  refine ⟨List.filter_sublist _, ?_, ?_⟩
  · intro v hv
    exact (List.mem_filter.mp hv).2
  · intro v
    by_cases hv : strContains v.pyStr "tiktok.com" = true
    · rw [if_pos hv]
      exact List.count_filter hv
    · rw [if_neg hv, List.count_eq_zero]
      intro hm
      exact hv (List.mem_filter.mp hm).2

/-- C9 witness: on the spec's sample column, the first link is kept
and matches, and its multiplicity is the input's. -/
theorem C9_witness :
    strContains (Value.vStr "https://www.tiktok.com/@a/video/1").pyStr
      "tiktok.com" = true ∧
    (GoogleSheetsDataSource.get_links specColumn).count
        (Value.vStr "https://www.tiktok.com/@a/video/1") =
      (if strContains (Value.vStr "https://www.tiktok.com/@a/video/1").pyStr
          "tiktok.com" = true
       then specColumn.count (Value.vStr "https://www.tiktok.com/@a/video/1")
       else 0) :=
  ⟨(C9_get_links_filter specColumn).2.1 _ (by decide),
   (C9_get_links_filter specColumn).2.2 _⟩

/-- C8: `TikTokDataFetcher.fetch_data` never raises to its caller: a
raising scrape or read-back is converted to the empty-frame sentinel,
and any non-empty returned frame carries a `source_link` column
constantly equal to the input link. -/
theorem C8_fetch_data_sentinel_and_stamp (link : String) (scrape : ScrapeOutcome) :
    (∀ msg, scrape = ScrapeOutcome.raises msg →
      TikTokDataFetcher.fetch_data link scrape = DataFrame.emptyDF) ∧
    ((TikTokDataFetcher.fetch_data link scrape).emptyB = false →
      (TikTokDataFetcher.fetch_data link scrape).getCol "source_link" =
        some (List.replicate
          (TikTokDataFetcher.fetch_data link scrape).rows.length
          (Value.vStr link))) := by
  cases scrape with
  | raises msg =>
    refine ⟨fun _ _ => rfl, ?_⟩
    intro h
    cases h
  | readsBack df =>
    refine ⟨(fun msg h => nomatch h), ?_⟩
    intro h
    have h1 : (df.setConstCol "source_link" (Value.vStr link)).hasCol
        "source_link" = true :=
      DataFrame.hasCol_setConstCol_self df _ _
    show (df.setConstCol "source_link" (Value.vStr link)).getCol "source_link" =
      some (List.replicate
        (df.setConstCol "source_link" (Value.vStr link)).rows.length
        (Value.vStr link))
    simp only [DataFrame.getCol, h1, if_true, DataFrame.rows_setConstCol,
      List.length_map]
    exact congrArg some (map_cell_set_replicate df.rows "source_link"
      (Value.vStr link))

/-- C8 witness: a raising scrape yields the empty sentinel, and the
read-back of `sampleDF` is stamped with the link on its one row. -/
theorem C8_witness :
    TikTokDataFetcher.fetch_data "L" (ScrapeOutcome.raises "err") =
      DataFrame.emptyDF ∧
    (TikTokDataFetcher.fetch_data "L" (ScrapeOutcome.readsBack sampleDF)).getCol
        "source_link" =
      some (List.replicate
        (TikTokDataFetcher.fetch_data "L" (ScrapeOutcome.readsBack sampleDF)).rows.length
        (Value.vStr "L")) :=
  ⟨(C8_fetch_data_sentinel_and_stamp "L" (ScrapeOutcome.raises "err")).1 "err" rfl,
   (C8_fetch_data_sentinel_and_stamp "L" (ScrapeOutcome.readsBack sampleDF)).2
     (by decide)⟩

/-- C7: on an empty table both sinks return the empty string and
perform no write (the spreadsheet sink makes no remote call); on a
non-empty table the file sink returns the path of the written file
under its configured output directory and writes exactly that file. -/
theorem C7_sink_empty_behaviour (dir fn sheet_name : String) (env : SheetsRemote)
    (df : DataFrame) :
    (df.emptyB = true →
      CSVDataStorage.save_data dir df fn = ("", []) ∧
      GoogleSheetsDataStorage.save_data env df sheet_name = ("", [])) ∧
    (df.emptyB = false →
      CSVDataStorage.save_data dir df fn =
        (dir ++ "/" ++ fn, [(dir ++ "/" ++ fn, df)])) := by
  constructor
  · intro h
    constructor
    · simp [CSVDataStorage.save_data, h]
    · simp [GoogleSheetsDataStorage.save_data, h]
  · intro h
    simp [CSVDataStorage.save_data, h]

/-- C7 witness: the empty frame produces no write in either sink, and
`sampleDF` is written by the file sink at its joined path. -/
theorem C7_witness :
    CSVDataStorage.save_data "tiktok_data" DataFrame.emptyDF "a.csv" = ("", []) ∧
    GoogleSheetsDataStorage.save_data sampleEnv DataFrame.emptyDF "s" = ("", []) ∧
    CSVDataStorage.save_data "tiktok_data" sampleDF "a.csv" =
      ("tiktok_data/a.csv", [("tiktok_data/a.csv", sampleDF)]) :=
  ⟨((C7_sink_empty_behaviour "tiktok_data" "a.csv" "s" sampleEnv
      DataFrame.emptyDF).1 rfl).1,
   ((C7_sink_empty_behaviour "tiktok_data" "a.csv" "s" sampleEnv
      DataFrame.emptyDF).1 rfl).2,
   (C7_sink_empty_behaviour "tiktok_data" "a.csv" "s" sampleEnv sampleDF).2
     (by decide)⟩

/-- C6: `GoogleSheetsDataStorage.save_data` never raises: whenever any
remote step (creation, permission-granting, worksheet lookup, write)
fails the returned identifier is the empty string, and on success with
a non-empty table it performs the `A1` update with the header row
followed by the data rows and returns the new spreadsheet's id. -/
theorem C6_sheets_save_catches (env : SheetsRemote) (df : DataFrame) (name : String) :
    ((env.connectFails || env.createFails || env.permFails || env.worksheetFails ||
        env.updateFails) = true →
      (GoogleSheetsDataStorage.save_data env df name).1 = "") ∧
    (df.emptyB = false →
      (env.connectFails || env.createFails || env.permFails || env.worksheetFails ||
        env.updateFails) = false →
      GoogleSheetsDataStorage.save_data env df name =
        (env.newId,
         [GsEvent.connect, GsEvent.create name,
          GsEvent.insertPermission env.newId, GsEvent.getWorksheet,
          GsEvent.update "A1" (GoogleSheetsDataStorage.sheetValues df)])) := by
  obtain ⟨c1, c2, c3, c4, c5, sid⟩ := env
  constructor
  · intro hf
    by_cases hdf : df.emptyB
    · simp [GoogleSheetsDataStorage.save_data, hdf]
    · rw [Bool.not_eq_true] at hdf
      cases c1 <;> cases c2 <;> cases c3 <;> cases c4 <;> cases c5 <;>
        simp_all [GoogleSheetsDataStorage.save_data,
          GoogleSheetsDataStorage.save_attempt]
  · intro hdf hok
    cases c1 <;> cases c2 <;> cases c3 <;> cases c4 <;> cases c5 <;>
      simp_all [GoogleSheetsDataStorage.save_data,
        GoogleSheetsDataStorage.save_attempt]

/-- C6 witness: a failing permission call yields an empty-string id on
`sampleDF`, and the all-success oracle performs the full `A1` write
and returns the created id. -/
theorem C6_witness :
    (GoogleSheetsDataStorage.save_data failEnv sampleDF "s").1 = "" ∧
    GoogleSheetsDataStorage.save_data sampleEnv sampleDF "s" =
      ("sheet-id-1",
       [GsEvent.connect, GsEvent.create "s", GsEvent.insertPermission "sheet-id-1",
        GsEvent.getWorksheet,
        GsEvent.update "A1" (GoogleSheetsDataStorage.sheetValues sampleDF)]) :=
  ⟨(C6_sheets_save_catches failEnv sampleDF "s").1 rfl,
   (C6_sheets_save_catches sampleEnv sampleDF "s").2 (by decide) rfl⟩

/-- C2: `process_data` returns the empty frame on empty input; on a
non-empty input with a `source_link` column it returns one row per
input row in input order, with the sequence column exactly `1..N` and
the `Link Video` column equal to the input's `source_link` column. -/
theorem C2_process_data_shape (df : DataFrame) :
    (df.emptyB = true →
      TikTokDataProcessor.process_data df = Except.ok DataFrame.emptyDF) ∧
    (df.emptyB = false → df.hasCol "source_link" = true →
      ∃ out, TikTokDataProcessor.process_data df = Except.ok out ∧
        out.rows.length = df.rows.length ∧
        out.getCol "STT" =
          some ((List.range df.rows.length).map
            (fun k => Value.vInt (Int.ofNat (k + 1)))) ∧
        out.getCol "Link Video" = df.getCol "source_link") := by
  constructor
  · intro h
    simp [TikTokDataProcessor.process_data, h]
  · intro h1 h2
    refine ⟨_, TikTokDataProcessor.process_data_ok df h1 h2, ?_, ?_, ?_⟩
    · simp
    · rw [DataFrame.getCol_mk_of_mem _ _ _ (by decide)]
      exact congrArg some (TikTokDataProcessor.map_stt_formatted df)
    · rw [DataFrame.getCol_mk_of_mem _ _ _ (by decide),
        DataFrame.getCol_of_hasCol df _ h2]
      exact congrArg some (TikTokDataProcessor.map_cell_formatted df "Link Video"
        (fun r => r.cell "source_link")
        (fun i r => by simp [TikTokDataProcessor.formattedRow]))

/-- C2 witness: the shape properties hold on the one-row `sampleDF`. -/
theorem C2_witness :
    ∃ out, TikTokDataProcessor.process_data sampleDF = Except.ok out ∧
      out.rows.length = sampleDF.rows.length ∧
      out.getCol "STT" =
        some ((List.range sampleDF.rows.length).map
          (fun k => Value.vInt (Int.ofNat (k + 1)))) ∧
      out.getCol "Link Video" = sampleDF.getCol "source_link" :=
  (C2_process_data_shape sampleDF).2 (by decide) (by decide)

/-- C3: column resolution in `process_data` is first-match-wins in the
stated priority order for each logical field, with the stated default
when no candidate column is present, and the candidate lookup itself
never fails on a missing column. -/
theorem C3_column_resolution (df : DataFrame)
    (h1 : df.emptyB = false) (h2 : df.hasCol "source_link" = true) :
    ∃ out, TikTokDataProcessor.process_data df = Except.ok out ∧
      (df.hasCol "video_playcount" = true →
        out.getCol "Lượt xem" =
          some (df.rows.map (fun r => r.cell "video_playcount"))) ∧
      (df.hasCol "video_playcount" = false → df.hasCol "stats_playCount" = true →
        out.getCol "Lượt xem" =
          some (df.rows.map (fun r => r.cell "stats_playCount"))) ∧
      (df.hasCol "video_playcount" = false → df.hasCol "stats_playCount" = false →
        df.hasCol "play_count" = true →
        out.getCol "Lượt xem" =
          some (df.rows.map (fun r => r.cell "play_count"))) ∧
      (df.hasCol "video_playcount" = false → df.hasCol "stats_playCount" = false →
        df.hasCol "play_count" = false →
        out.getCol "Lượt xem" =
          some (List.replicate df.rows.length (Value.vInt 0))) ∧
      (df.hasCol "author_username" = true →
        out.getCol "Người Đăng" =
          some (df.rows.map (fun r => r.cell "author_username"))) ∧
      (df.hasCol "author_username" = false → df.hasCol "author_uniqueId" = true →
        out.getCol "Người Đăng" =
          some (df.rows.map (fun r => r.cell "author_uniqueId"))) ∧
      (df.hasCol "author_username" = false → df.hasCol "author_uniqueId" = false →
        df.hasCol "author_nickname" = true →
        out.getCol "Người Đăng" =
          some (df.rows.map (fun r => r.cell "author_nickname"))) ∧
      (df.hasCol "author_username" = false → df.hasCol "author_uniqueId" = false →
        df.hasCol "author_nickname" = false →
        out.getCol "Người Đăng" =
          some (List.replicate df.rows.length (Value.vStr "Unknown"))) ∧
      (df.hasCol "author_followercount" = true →
        out.getCol "Follower Người Đăng" =
          some (df.rows.map (fun r => r.cell "author_followercount"))) ∧
      (df.hasCol "author_followercount" = false →
        df.hasCol "authorStats_followerCount" = true →
        out.getCol "Follower Người Đăng" =
          some (df.rows.map (fun r => r.cell "authorStats_followerCount"))) ∧
      (df.hasCol "author_followercount" = false →
        df.hasCol "authorStats_followerCount" = false →
        out.getCol "Follower Người Đăng" =
          some (List.replicate df.rows.length (Value.vInt 0))) := by
  refine ⟨_, TikTokDataProcessor.process_data_ok df h1 h2,
    ?_, ?_, ?_, ?_, ?_, ?_, ?_, ?_, ?_, ?_, ?_⟩
  · intro hv
    rw [DataFrame.getCol_mk_of_mem _ _ _ (by decide)]
    exact congrArg some (TikTokDataProcessor.map_cell_formatted df _ _
      (fun i r => by
        simp [TikTokDataProcessor.formattedRow,
          TikTokDataProcessor.viewCountCell, hv]))
  · intro hv hs
    rw [DataFrame.getCol_mk_of_mem _ _ _ (by decide)]
    exact congrArg some (TikTokDataProcessor.map_cell_formatted df _ _
      (fun i r => by
        simp [TikTokDataProcessor.formattedRow,
          TikTokDataProcessor.viewCountCell, hv, hs]))
  · intro hv hs hp
    rw [DataFrame.getCol_mk_of_mem _ _ _ (by decide)]
    exact congrArg some (TikTokDataProcessor.map_cell_formatted df _ _
      (fun i r => by
        simp [TikTokDataProcessor.formattedRow,
          TikTokDataProcessor.viewCountCell, hv, hs, hp]))
  · intro hv hs hp
    rw [DataFrame.getCol_mk_of_mem _ _ _ (by decide)]
    refine congrArg some ?_
    rw [TikTokDataProcessor.map_cell_formatted df _ (fun _ => Value.vInt 0)
      (fun i r => by
        simp [TikTokDataProcessor.formattedRow,
          TikTokDataProcessor.viewCountCell, hv, hs, hp])]
    exact map_const_replicate df.rows (Value.vInt 0)
  · intro ha
    rw [DataFrame.getCol_mk_of_mem _ _ _ (by decide)]
    exact congrArg some (TikTokDataProcessor.map_cell_formatted df _ _
      (fun i r => by
        simp [TikTokDataProcessor.formattedRow,
          TikTokDataProcessor.authorCell, ha]))
  · intro ha hu
    rw [DataFrame.getCol_mk_of_mem _ _ _ (by decide)]
    exact congrArg some (TikTokDataProcessor.map_cell_formatted df _ _
      (fun i r => by
        simp [TikTokDataProcessor.formattedRow,
          TikTokDataProcessor.authorCell, ha, hu]))
  · intro ha hu hn
    rw [DataFrame.getCol_mk_of_mem _ _ _ (by decide)]
    exact congrArg some (TikTokDataProcessor.map_cell_formatted df _ _
      (fun i r => by
        simp [TikTokDataProcessor.formattedRow,
          TikTokDataProcessor.authorCell, ha, hu, hn]))
  · intro ha hu hn
    rw [DataFrame.getCol_mk_of_mem _ _ _ (by decide)]
    refine congrArg some ?_
    rw [TikTokDataProcessor.map_cell_formatted df _ (fun _ => Value.vStr "Unknown")
      (fun i r => by
        simp [TikTokDataProcessor.formattedRow,
          TikTokDataProcessor.authorCell, ha, hu, hn])]
    exact map_const_replicate df.rows (Value.vStr "Unknown")
  · intro hf
    rw [DataFrame.getCol_mk_of_mem _ _ _ (by decide)]
    exact congrArg some (TikTokDataProcessor.map_cell_formatted df _ _
      (fun i r => by
        simp [TikTokDataProcessor.formattedRow,
          TikTokDataProcessor.followerCell, hf]))
  · intro hf hs
    rw [DataFrame.getCol_mk_of_mem _ _ _ (by decide)]
    exact congrArg some (TikTokDataProcessor.map_cell_formatted df _ _
      (fun i r => by
        simp [TikTokDataProcessor.formattedRow,
          TikTokDataProcessor.followerCell, hf, hs]))
  · intro hf hs
    rw [DataFrame.getCol_mk_of_mem _ _ _ (by decide)]
    refine congrArg some ?_
    rw [TikTokDataProcessor.map_cell_formatted df _ (fun _ => Value.vInt 0)
      (fun i r => by
        simp [TikTokDataProcessor.formattedRow,
          TikTokDataProcessor.followerCell, hf, hs])]
    exact map_const_replicate df.rows (Value.vInt 0)

/-- C3 witness: `sampleDF` carries both `video_playcount` and
`stats_playCount`, and the priority order picks `video_playcount`;
it has no follower-count candidate, and the default `0` is used. -/
theorem C3_witness :
    ∃ out, TikTokDataProcessor.process_data sampleDF = Except.ok out ∧
      out.getCol "Lượt xem" =
        some (sampleDF.rows.map (fun r => r.cell "video_playcount")) ∧
      out.getCol "Follower Người Đăng" =
        some (List.replicate sampleDF.rows.length (Value.vInt 0)) := by
  obtain ⟨out, hok, c1, c2, c3, c4, c5, c6, c7, c8, c9, c10, c11⟩ :=
    C3_column_resolution sampleDF (by decide) (by decide)
  exact ⟨out, hok, c1 (by decide), c11 (by decide) (by decide)⟩

/-- C1: whenever the fetcher stamps `source_link` on its non-empty
results (as the real one does, cf. C8), the pipeline returns one
outcome per link in link order — `Success` without error key for a
non-empty fetched frame, `Failed`/"Empty data returned" for an empty
one, `Failed` with the caught message for a raising fetch — the
cumulative table's rows are exactly the non-empty fetched frames'
rows stamped with their link's 1-based `link_index`, in link order,
and the pacing sleep runs exactly `N - 1` times. -/
theorem C1_pipeline_outcomes (fb : Nat → FetchBehavior) (links : List String)
    (ts : String) (H : fetcherStampsSourceLink fb) :
    ∃ all results events,
      DataCollector.collect_data fb links ts = Except.ok (all, results, events) ∧
      results = outcomesSpec fb 0 links ∧
      results.length = links.length ∧
      all.rows = contribRows fb 0 links ∧
      events.count Event.sleep5 = links.length - 1 := by
  obtain ⟨⟨all, results, events⟩, hok⟩ :=
    DataCollector.collect_data_isOk fb links ts H
  obtain ⟨h1, h2, tail, h3, h4, -⟩ :=
    DataCollector.collect_data_decomp fb links ts all results events hok
  refine ⟨all, results, events, hok, ?_, ?_, ?_, ?_⟩
  · rw [h2, DataCollector.collectLoop_results]
  · rw [h2, DataCollector.collectLoop_results, outcomesSpec_length]
  · rw [h1, DataCollector.collectLoop_rows]
    exact List.nil_append _
  · rw [h3, List.count_append,
      DataCollector.collectLoop_sleep_count fb links.length links 0 _ (by simp)]
    have ht : tail.count Event.sleep5 = 0 := by
      rw [List.count_eq_zero]
      intro hm
      have hs := h4 _ hm
      simp [Event.isSave] at hs
    omega

/-- C1 witness: the spec's three-link run (link 2 raises) taken
through the theorem. -/
theorem C1_witness :
    ∃ all results events,
      DataCollector.collect_data specFetch specLinks "TS" =
        Except.ok (all, results, events) ∧
      results = outcomesSpec specFetch 0 specLinks ∧
      results.length = specLinks.length ∧
      all.rows = contribRows specFetch 0 specLinks ∧
      events.count Event.sleep5 = specLinks.length - 1 :=
  C1_pipeline_outcomes specFetch specLinks "TS" specFetch_stamps

/-- C10: in any outcome list the pipeline returns, every record's
status is "Success" or "Failed", the error field is present exactly
when the status is "Failed", and the indices are exactly `1..N` in
attempt order. -/
theorem C10_outcome_list_invariant (fb : Nat → FetchBehavior) (links : List String)
    (ts : String) (all : DataFrame) (results : List Outcome) (events : List Event)
    (h : DataCollector.collect_data fb links ts = Except.ok (all, results, events)) :
    (∀ o ∈ results, (o.status = "Success" ∨ o.status = "Failed") ∧
      (o.error.isSome = true ↔ o.status = "Failed")) ∧
    results.map (fun o => o.index) =
      (List.range links.length).map (fun k => k + 1) := by
  obtain ⟨-, h2, -⟩ :=
    DataCollector.collect_data_decomp fb links ts all results events h
  rw [h2, DataCollector.collectLoop_results]
  constructor
  · exact outcomesSpec_statuses fb links 0
  · rw [outcomesSpec_map_index]
    exact List.map_congr_left fun a _ => by omega

/-- C10 witness: the invariant holds on the concrete three-link run. -/
theorem C10_witness :
    ∃ all results events,
      DataCollector.collect_data specFetch specLinks "TS" =
        Except.ok (all, results, events) ∧
      (∀ o ∈ results, (o.status = "Success" ∨ o.status = "Failed") ∧
        (o.error.isSome = true ↔ o.status = "Failed")) ∧
      results.map (fun o => o.index) =
        (List.range specLinks.length).map (fun k => k + 1) := by
  obtain ⟨⟨all, results, events⟩, h⟩ :=
    DataCollector.collect_data_isOk specFetch specLinks "TS" specFetch_stamps
  exact ⟨all, results, events, h,
    C10_outcome_list_invariant specFetch specLinks "TS" all results events h⟩

/-- C5: after the loop (whose events invoke no sink), the pipeline
invokes the file sink on the cumulative raw table exactly when that
table is non-empty, always invokes the file sink on the outcome list,
and exactly when the raw table is non-empty it normalizes it and
invokes both the file sink and the spreadsheet sink (under the
timestamped name) on the normalized table. -/
theorem C5_final_saves (fb : Nat → FetchBehavior) (links : List String) (ts : String)
    (all : DataFrame) (results : List Outcome) (events : List Event)
    (h : DataCollector.collect_data fb links ts = Except.ok (all, results, events)) :
    ∃ pre, (∀ e ∈ pre, e.isSave = false) ∧
      ((all.emptyB = true ∧
          events = pre ++ [Event.csvSave (DataCollector.resultsToDF results)
            ("processing_summary_" ++ ts ++ ".csv")]) ∨
       (all.emptyB = false ∧ ∃ processed,
          TikTokDataProcessor.process_data all = Except.ok processed ∧
          events = pre ++
            [Event.csvSave all ("all_tiktok_data_" ++ ts ++ ".csv"),
             Event.csvSave (DataCollector.resultsToDF results)
               ("processing_summary_" ++ ts ++ ".csv"),
             Event.csvSave processed ("formatted_tiktok_data_" ++ ts ++ ".csv"),
             Event.sheetsSave processed ("TikTok Data Analysis " ++ ts)])) := by
  obtain ⟨h1, h2, tail, h3, h4, h5⟩ :=
    DataCollector.collect_data_decomp fb links ts all results events h
  refine ⟨(DataCollector.collectLoop fb links.length 0 links DataFrame.emptyDF).2.2,
    DataCollector.collectLoop_no_save fb links.length links 0 _, ?_⟩
  rcases h5 with ⟨he, ht⟩ | ⟨he, processed, hpd, ht⟩
  · exact Or.inl ⟨he, by rw [h3, ht]⟩
  · exact Or.inr ⟨he, processed, hpd, by rw [h3, ht]⟩

/-- C5 witness: the save-section shape on the concrete three-link
run. -/
theorem C5_witness :
    ∃ all results events,
      DataCollector.collect_data specFetch specLinks "TS" =
        Except.ok (all, results, events) ∧
      ∃ pre, (∀ e ∈ pre, e.isSave = false) ∧
        ((all.emptyB = true ∧
            events = pre ++ [Event.csvSave (DataCollector.resultsToDF results)
              ("processing_summary_TS.csv")]) ∨
         (all.emptyB = false ∧ ∃ processed,
            TikTokDataProcessor.process_data all = Except.ok processed ∧
            events = pre ++
              [Event.csvSave all "all_tiktok_data_TS.csv",
               Event.csvSave (DataCollector.resultsToDF results)
                 "processing_summary_TS.csv",
               Event.csvSave processed "formatted_tiktok_data_TS.csv",
               Event.sheetsSave processed "TikTok Data Analysis TS"])) := by
  obtain ⟨⟨all, results, events⟩, h⟩ :=
    DataCollector.collect_data_isOk specFetch specLinks "TS" specFetch_stamps
  exact ⟨all, results, events, h,
    C5_final_saves specFetch specLinks "TS" all results events h⟩

/-- C4 counterexample: a one-link run whose fetch raises while leaving
the scratch file on disk performs no scratch removal at all, so the
scratch file is not deleted in the exception case. -/
theorem C4_counterexample :
    badFetch 0 = FetchBehavior.raises "boom" true ∧
    (match DataCollector.collect_data badFetch ["A"] "T" with
     | Except.ok (_, _, events) =>
       events.countP (fun e => match e with
         | Event.removeScratch _ _ => true
         | _ => false)
     | Except.error _ => 1) = 0 := by
  constructor
  · rfl
  · decide

/-- C4 (amended): for every link whose fetch returns (`Success` or
empty-result `Failed`), the scratch file is removed exactly when it is
present; for a link whose processing raises, the `except` path skips
the cleanup and no removal of that link's scratch file occurs. -/
theorem C4_scratch_cleanup_amended (fb : Nat → FetchBehavior) (links : List String)
    (ts : String) (all : DataFrame) (results : List Outcome) (events : List Event)
    (h : DataCollector.collect_data fb links ts = Except.ok (all, results, events))
    (i : Nat) :
    (∀ msg s, fb i = FetchBehavior.raises msg s →
      ∀ p, Event.removeScratch i p ∉ events) ∧
    (∀ df, i < links.length → fb i = FetchBehavior.returns df true →
      Event.removeScratch i (DataCollector.tempName i) ∈ events) ∧
    (∀ df, fb i = FetchBehavior.returns df false →
      ∀ p, Event.removeScratch i p ∉ events) := by
  obtain ⟨h1, h2, tail, h3, h4, -⟩ :=
    DataCollector.collect_data_decomp fb links ts all results events h
  have htail : ∀ p, Event.removeScratch i p ∉ tail := by
    intro p hm
    have hs := h4 _ hm
    simp [Event.isSave] at hs
  refine ⟨?_, ?_, ?_⟩
  · intro msg s hfb p hm
    rw [h3, List.mem_append] at hm
    rcases hm with hm | hm
    · obtain ⟨-, -, -, df', hdf'⟩ :=
        (DataCollector.collectLoop_removeScratch_mem fb links.length i p
          links 0 DataFrame.emptyDF).mp hm
      rw [hfb] at hdf'
      cases hdf'
    · exact htail p hm
  · intro df hi hfb
    rw [h3, List.mem_append]
    exact Or.inl ((DataCollector.collectLoop_removeScratch_mem fb links.length i
      (DataCollector.tempName i) links 0 DataFrame.emptyDF).mpr
        ⟨Nat.zero_le i, by omega, rfl, df, hfb⟩)
  · intro df hfb p hm
    rw [h3, List.mem_append] at hm
    rcases hm with hm | hm
    · obtain ⟨-, -, -, df', hdf'⟩ :=
        (DataCollector.collectLoop_removeScratch_mem fb links.length i p
          links 0 DataFrame.emptyDF).mp hm
      rw [hfb] at hdf'
      injection hdf' with e1 e2
      cases e2
    · exact htail p hm

/-- C4 witness: on the concrete three-link run, the scratch file of
link 1 (present after a returning fetch) is removed. -/
theorem C4_witness :
    ∃ all results events,
      DataCollector.collect_data specFetch specLinks "TS" =
        Except.ok (all, results, events) ∧
      Event.removeScratch 0 (DataCollector.tempName 0) ∈ events := by
  obtain ⟨⟨all, results, events⟩, h⟩ :=
    DataCollector.collect_data_isOk specFetch specLinks "TS" specFetch_stamps
  refine ⟨all, results, events, h, ?_⟩
  exact (C4_scratch_cleanup_amended specFetch specLinks "TS" all results events
    h 0).2.1 sampleDF (by decide) (by decide)

end TikTokData
